import Mathlib

/-!
Verification development for the MaiLauncher backend control plane.

The Python sources are shallowly embedded: the Record Store (instance and
service rows), the PTY Session Registry, the Command Resolver, the lifecycle
orchestrator (start / stop), the WebSocket bridge attach / detach logic, the
deployment source-fetch stage and the install-progress cache are all modelled
as pure Lean functions over explicit state.  Interaction with the outside
world (process liveness, write and terminate failures, spawn outcomes, the
wall clock, the virtual-environment probe, git clone outcomes) is captured by
an explicit environment record so that each operation is a total function of
the state and the environment.
-/

namespace MaiLauncher

/-- Generic association-list lookup keyed by strings (embeds a Python dict:
first binding wins; our insert keeps keys unique). -/
def alookup {α : Type} (l : List (String × α)) (k : String) : Option α :=
  (l.find? (fun p => p.1 == k)).map (·.2)

/-- Remove a binding (embeds `dict.pop`). -/
def aerase {α : Type} (l : List (String × α)) (k : String) : List (String × α) :=
  l.filter (fun p => !(p.1 == k))

/-- Python dict assignment `d[k] = v`: replace in place if present, else
append (dicts preserve insertion order). -/
def ainsert {α : Type} (l : List (String × α)) (k : String) (v : α) :
    List (String × α) :=
  if (alookup l k).isSome then
    l.map (fun p => if p.1 == k then (p.1, v) else p)
  else l ++ [(k, v)]

/-- In-place mutation of the value stored at `k` (no-op when absent). -/
def aupdate {α : Type} (l : List (String × α)) (k : String) (f : α → α) :
    List (String × α) :=
  l.map (fun p => if p.1 == k then (p.1, f p.2) else p)

/-- Instance status enumeration (instance_manager.py, class InstanceStatus). -/
inductive InstanceStatus where
  | RUNNING
  | STOPPED
  | STARTING
  | STOPPING
  | MAINTENANCE
  | NOT_RUNNING
deriving DecidableEq, Repr

/-- The stored string value of a status (instance_manager.py enum values). -/
def InstanceStatus.value : InstanceStatus → String
  | .RUNNING => "运行中"
  | .STOPPED => "已停止"
  | .STARTING => "启动中"
  | .STOPPING => "停止中"
  | .MAINTENANCE => "维护中"
  | .NOT_RUNNING => "未运行"

/-- A service row of the Record Store (fields used by the embedded code:
instance_id, name, path, run_cmd, status, port; the stored run command
column is spelled `runCmd` here). -/
structure ServiceRow where
  instance_id : String
  name : String
  path : String
  runCmd : String
  status : String
  port : Nat
deriving DecidableEq, Repr

/-- An instance row of the Record Store (fields used by the embedded code). -/
structure InstanceRow where
  instance_id : String
  name : String
  version : String
  path : String
  status : InstanceStatus
  host : String
  port : Nat
  token : String
  last_start_time : Option String
  total_runtime : Int
  start_count : Nat
deriving DecidableEq, Repr

/-- The durable Record Store: instance rows plus service rows. -/
structure RecordStore where
  instances : List InstanceRow
  services : List ServiceRow
deriving DecidableEq, Repr

/-- instance_manager.get_instance: first row with the given instance_id. -/
def RecordStore.getInstance (s : RecordStore) (iid : String) :
    Option InstanceRow :=
  s.instances.find? (fun r => r.instance_id == iid)

/-- instance_manager.get_instance_services: empty when the instance row is
missing, else every service row of that instance. -/
def RecordStore.getInstanceServices (s : RecordStore) (iid : String) :
    List ServiceRow :=
  if (s.getInstance iid).isSome then
    s.services.filter (fun r => r.instance_id == iid)
  else []

/-- database.Database.get_service_details: first service row matching the
instance id and the service name (no instance-existence check). -/
def RecordStore.getServiceDetails (s : RecordStore) (iid name : String) :
    Option ServiceRow :=
  s.services.find? (fun r => r.instance_id == iid && r.name == name)

/-- Update the unique row with the given id in place. -/
def RecordStore.updateInstance (s : RecordStore) (iid : String)
    (f : InstanceRow → InstanceRow) : RecordStore :=
  { s with instances :=
      s.instances.map (fun r => if r.instance_id == iid then f r else r) }

/-- instance_manager.update_instance_status: writes the status when the row
exists; the boolean mirrors whether a row was found (the Python function
returns the updated Instance or None). -/
def updateInstanceStatus (s : RecordStore) (iid : String)
    (st : InstanceStatus) : RecordStore × Bool :=
  (s.updateInstance iid (fun r => { r with status := st }),
   (s.getInstance iid).isSome)

/-- A pseudo-terminal handle; identity is the OS process id. -/
structure PtyHandle where
  pid : Nat
deriving DecidableEq, Repr

/-- One entry of the Session Registry (websocket_manager.active_ptys values:
pty, ws, output_task, instance_part, type_part, command_started,
working_directory).  Clients and relay tasks are identified by numbers. -/
structure PtyInfo where
  pty : Option PtyHandle
  ws : Option Nat
  output_task : Option Nat
  instance_part : String
  type_part : String
  command_started : Bool
  working_directory : Option String
deriving DecidableEq, Repr

/-- The Session Registry map (websocket_manager.active_ptys). -/
abbrev Registry := List (String × PtyInfo)

/-- External-world oracle: everything the embedded code observes that is not
part of the explicit state. -/
structure Env where
  /-- OS-level liveness of a pid, before accounting for our own kills. -/
  alive0 : Nat → Bool
  /-- pty.terminate(force=True) raises for this pid. -/
  termFails : Nat → Bool
  /-- pty.write raises for this pid. -/
  writeFails : Nat → Bool
  /-- Outcome of the k-th spawn attempt of this run: a fresh pid, or failure
  (PtyProcess.spawn raising, the cmd.exe fallback included). -/
  spawnOutcome : Nat → Option Nat
  /-- A usable virtual environment exists under this working directory. -/
  venvUsable : String → Bool
  /-- The venv-wrapped form of a base command for a working directory. -/
  venvRewrite : String → String → String
  /-- Wall clock, seconds (time.time / datetime.utcnow). -/
  now : Int
  /-- datetime.utcnow().isoformat() at this moment. -/
  nowIso : String
  /-- datetime.fromisoformat: parse a stored timestamp back to seconds. -/
  parseTime : String → Option Int

/-- The mutable world the lifecycle and bridge code acts on: the Record
Store, the Session Registry, the set of pids we force-terminated, and
counters handing out spawn attempts and relay-task identities. -/
structure World where
  store : RecordStore
  reg : Registry
  killed : List Nat
  spawnCount : Nat
  taskCount : Nat
deriving DecidableEq, Repr

/-- pty.isalive(): alive at the OS level and not force-terminated by us. -/
def isAlive (env : Env) (w : World) (p : PtyHandle) : Bool :=
  env.alive0 p.pid && !(w.killed.contains p.pid)

/-- One spawn attempt (PtyProcess.spawn): consumes a spawn slot and either
yields a handle or fails. -/
def spawnPty (env : Env) (w : World) : World × Option PtyHandle :=
  ({ w with spawnCount := w.spawnCount + 1 },
   (env.spawnOutcome w.spawnCount).map (fun pid => ⟨pid⟩))

/-- Helper for `rpartitionUnderscore`: split a character list at its LAST
underscore, returning (prefix, suffix) without the separator. -/
def splitLastUnderscoreAux : List Char → Option (List Char × List Char)
  | [] => none
  | c :: rest =>
    match splitLastUnderscoreAux rest with
    | some (pre, post) => some (c :: pre, post)
    | none => if c = '_' then some ([], rest) else none

/-- Python `s.rpartition("_")` as used by the bridge and the resolver:
`none` when no underscore occurs (the separator slot of the Python triple is
empty), else the text before and after the last underscore. -/
def rpartitionUnderscore (s : String) : Option (String × String) :=
  (splitLastUnderscoreAux s.data).map (fun q => (String.mk q.1, String.mk q.2))

/-- deploy_api.generate_venv_command: when a usable virtual environment
exists under the working directory the base command is rewritten to invoke
the venv interpreter, else the base command is returned unchanged.  The
filesystem and subprocess probes are the oracle `env.venvUsable`; the
rewritten text is `env.venvRewrite`. -/
def generate_venv_command (env : Env) (base_command working_directory : String) :
    String :=
  if env.venvUsable working_directory then
    env.venvRewrite base_command working_directory
  else base_command

/-- websocket_manager.get_pty_command_and_cwd_from_instance — the Command
Resolver.  Returns (command, cwd, status string); `none` command means the
resolution failed (malformed session id, unknown instance, service not in
the registered list, missing service path or run command, or an empty
command or cwd at the final check).  Registered-service names are read from
the rows returned by get_instance_services through their name field, as the
documented per-service record contract of that function specifies, with
falsy (empty) names skipped. -/
def get_pty_command_and_cwd_from_instance (env : Env) (store : RecordStore)
    (instance_id_full : String) :
    Option String × Option String × Option String :=
  match rpartitionUnderscore instance_id_full with
  | none => (none, none, none)
  | some (instance_short_id, type_part) =>
    match store.getInstance instance_short_id with
    | none => (none, none, none)
    | some inst =>
      let status_value := inst.status.value
      let resolved : Option (String × String) :=
        if type_part = "main" then
          -- main: fixed entry point in the instance path, venv-wrapped
          some (generate_venv_command env "python bot.py" inst.path, inst.path)
        else
          -- service: must be in the registered list and have path + run_cmd
          let installed := store.getInstanceServices instance_short_id
          let names := (installed.filter (fun s => s.name ≠ "")).map (·.name)
          if !(names.contains type_part) then none
          else
            match store.getServiceDetails instance_short_id type_part with
            | none => none
            | some sd =>
              if sd.path ≠ "" && sd.runCmd ≠ "" then
                some (generate_venv_command env sd.runCmd sd.path, sd.path)
              else none
      match resolved with
      | none => (none, none, some status_value)
      | some (cmd, cwd) =>
        if cmd = "" || cwd = "" then (none, none, some status_value)
        else (some cmd, some cwd, some status_value)

/-- instance_api._start_pty_process: deliver the resolved run command to an
existing live idle shell, or spawn the command directly; `false` on any
failure (resolution failure, write failure, spawn failure), `true` when the
command is running (a no-op when it already was). -/
def start_pty_process (env : Env) (w : World)
    (session_id instance_short_id type_part : String) : World × Bool :=
  let res := get_pty_command_and_cwd_from_instance env w.store session_id
  match res.1 with
  | none => (w, false)
  | some cmd =>
    if cmd = "" then (w, false)
    else
      let pty_cwd := res.2.1
      match alookup w.reg session_id with
      | some info =>
        match info.pty with
        | some p =>
          if isAlive env w p then
            if info.command_started then (w, true)
            else if env.writeFails p.pid then (w, false)
            else
              ({ w with reg := aupdate w.reg session_id (fun i =>
                  { i with command_started := true,
                           working_directory := pty_cwd }) }, true)
          else start_pty_spawn env w session_id instance_short_id type_part pty_cwd
        | none => start_pty_spawn env w session_id instance_short_id type_part pty_cwd
      | none => start_pty_spawn env w session_id instance_short_id type_part pty_cwd
where
  /-- The spawn branch: spawn the command directly and register the entry
  with command_started = true and no attached client or relay task. -/
  start_pty_spawn (env : Env) (w : World)
      (session_id instance_short_id type_part : String)
      (pty_cwd : Option String) : World × Bool :=
    let s := spawnPty env w
    match s.2 with
    | none => (s.1, false)
    | some p =>
      let info : PtyInfo :=
        { pty := some p, ws := none, output_task := none,
          instance_part := instance_short_id, type_part := type_part,
          command_started := true, working_directory := pty_cwd }
      ({ s.1 with reg := ainsert s.1.reg session_id info }, true)

/-- instance_api._stop_pty_process: best-effort termination of one session;
removes the entry when a pty object is present, force-kills a live pty, and
returns `false` only when the terminate call raised. -/
def stop_pty_process (env : Env) (w : World) (session_id : String) :
    World × Bool :=
  match alookup w.reg session_id with
  | none => (w, true)
  | some info =>
    match info.pty with
    | none => (w, true)
    | some p =>
      if !(isAlive env w p) then
        ({ w with reg := aerase w.reg session_id }, true)
      else
        let w1 := { w with reg := aerase w.reg session_id }
        if env.termFails p.pid then (w1, false)
        else ({ w1 with killed := p.pid :: w1.killed }, true)

/-- Result shape of websocket_manager.stop_all_ptys_for_instance. -/
structure StopAllResult where
  success : Bool
  terminated : List String
  failed : List String
deriving DecidableEq, Repr

/-- One iteration of the sweep in stop_all_ptys_for_instance: pop the
session, cancel its relay, terminate a live pty (recording a failure when
the terminate call raises), and record the outcome. -/
def stopAllStep (env : Env) (acc : World × StopAllResult) (sid : String) :
    World × StopAllResult :=
  let w := acc.1
  let r := acc.2
  match alookup w.reg sid with
  | none =>
    -- already removed by its own disconnect logic: counted as gone
    (w, { r with terminated := r.terminated ++ [sid] })
  | some info =>
    let w1 := { w with reg := aerase w.reg sid }
    match info.pty with
    | none => (w1, { r with terminated := r.terminated ++ [sid] })
    | some p =>
      if isAlive env w p then
        if env.termFails p.pid then
          (w1, { r with success := false, failed := r.failed ++ [sid] })
        else
          ({ w1 with killed := p.pid :: w1.killed },
           { r with terminated := r.terminated ++ [sid] })
      else (w1, { r with terminated := r.terminated ++ [sid] })

/-- websocket_manager.stop_all_ptys_for_instance: terminate every registry
entry tagged with the instance; failures are collected, never raised. -/
def stop_all_ptys_for_instance (env : Env) (w : World)
    (instance_short_id : String) : World × StopAllResult :=
  let sessions :=
    (w.reg.filter (fun p => p.2.instance_part == instance_short_id)).map (·.1)
  if sessions.isEmpty then (w, { success := true, terminated := [], failed := [] })
  else
    sessions.foldl (stopAllStep env)
      (w, { success := true, terminated := [], failed := [] })

/-- The {success, message} surface returned by the lifecycle endpoints. -/
structure ActionResponse where
  success : Bool
  message : String
deriving DecidableEq, Repr

/-- The stop endpoint message when every termination was confirmed. -/
def stopOkMsg (name : String) : String :=
  "实例 " ++ name ++ " 所有组件已成功停止。"

/-- The stop endpoint message when some pty termination failed. -/
def stopPartialMsg (name : String) : String :=
  "实例 " ++ name ++ " 组件已停止，但部分 PTY 可能未能完全确认停止。"

/-- Instrumented result of stop_instance: the final world, the sequence of
status values written to the Record Store, the HTTP outcome (`Except.error
404` when the instance is unknown), and the source local
all_processes_stopped_successfully. -/
structure StopOutcome where
  world : World
  statusWrites : List InstanceStatus
  http : Except Nat ActionResponse
  allPtysStopped : Bool
deriving Repr

/-- One iteration of the per-role stop loop of instance_api.stop_instance:
stop the session of one role and fold the success flag. -/
def stopRolesStep (env : Env) (instance_id : String) (acc : World × Bool)
    (t : String) : World × Bool :=
  let r := stop_pty_process env acc.1 (instance_id ++ "_" ++ t)
  (r.1, acc.2 && r.2)

/-- instance_api.stop_instance: set STOPPING, best-effort stop of the main
role and every registered service name (deduplicated, empty names skipped),
a supplementary stop_all_ptys_for_instance sweep, runtime accounting, and a
final unconditional STOPPED write. -/
def stop_instance (env : Env) (w : World) (instance_id : String) : StopOutcome :=
  match w.store.getInstance instance_id with
  | none => { world := w, statusWrites := [], http := .error 404,
              allPtysStopped := true }
  | some inst =>
    let store1 := (updateInstanceStatus w.store instance_id .STOPPING).1
    let w1 := { w with store := store1 }
    let pty_types_to_stop :=
      ((w1.store.getInstanceServices instance_id).map (·.name)).foldl
        (fun acc n => if n ≠ "" && !(acc.contains n) then acc ++ [n] else acc)
        ["main"]
    let fr := pty_types_to_stop.foldl (stopRolesStep env instance_id) (w1, true)
    let allOk := fr.2
    let w3 := (stop_all_ptys_for_instance env fr.1 instance_id).1
    let store3 := w3.store.updateInstance instance_id (fun r =>
      let r' :=
        match r.last_start_time.bind env.parseTime with
        | some t0 => { r with total_runtime := r.total_runtime + (env.now - t0) }
        | none => r
      { r' with last_start_time := none })
    let u4 := updateInstanceStatus store3 instance_id .STOPPED
    { world := { w3 with store := u4.1 },
      statusWrites := [.STOPPING, .STOPPED],
      http :=
        if u4.2 then
          .ok { success := true,
                message := if allOk then stopOkMsg inst.name
                           else stopPartialMsg inst.name }
        else
          .ok { success := false,
                message := "实例 " ++ inst.name ++
                  " 组件已尝试停止，但状态更新失败。" },
      allPtysStopped := allOk }

/-- Instrumented result of start_instance: the final world, the sequence of
status values written, the HTTP outcome, the source local
started_any_process, and the session roles attempted in order. -/
structure StartOutcome where
  world : World
  statusWrites : List InstanceStatus
  http : Except Nat ActionResponse
  startedAny : Bool
  attempted : List String
deriving Repr

/-- One iteration of the service loop of instance_api.start_instance: skip
empty names and a service literally named "main", else attempt its session
and fold the any-success flag, recording the attempted role. -/
def startServicesStep (env : Env) (instance_id : String)
    (acc : World × Bool × List String) (svc : ServiceRow) :
    World × Bool × List String :=
  if svc.name = "" || svc.name = "main" then acc
  else
    let r := start_pty_process env acc.1
      (instance_id ++ "_" ++ svc.name) instance_id svc.name
    (r.1, acc.2.1 || r.2, acc.2.2 ++ [svc.name])

/-- instance_api.start_instance: set STARTING, write the start timestamp and
increment start_count, attempt the main role then every registered service
(skipping empty names and a service literally named "main"); any success
leads to a RUNNING write, none to a STOPPED write. -/
def start_instance (env : Env) (w : World) (instance_id : String) : StartOutcome :=
  match w.store.getInstance instance_id with
  | none => { world := w, statusWrites := [], http := .error 404,
              startedAny := false, attempted := [] }
  | some inst =>
    let store1 := (updateInstanceStatus w.store instance_id .STARTING).1
    let store2 := store1.updateInstance instance_id (fun r =>
      { r with last_start_time := some env.nowIso,
               start_count := r.start_count + 1 })
    let w1 := { w with store := store2 }
    let m := start_pty_process env w1 (instance_id ++ "_main") instance_id "main"
    let services := m.1.store.getInstanceServices instance_id
    let fr := services.foldl (startServicesStep env instance_id) (m.1, m.2, [])
    let w3 := fr.1
    let anyOk := fr.2.1
    let att := fr.2.2
    if anyOk then
      let u := updateInstanceStatus w3.store instance_id .RUNNING
      { world := { w3 with store := u.1 },
        statusWrites := [.STARTING, .RUNNING],
        http := .ok
          { success := true,
            message :=
              if u.2 then "实例 " ++ inst.name ++ " 组件已启动。"
              else "实例 " ++ inst.name ++ " 组件已启动，但状态更新失败。" },
        startedAny := true, attempted := "main" :: att }
    else
      let u := updateInstanceStatus w3.store instance_id .STOPPED
      { world := { w3 with store := u.1 },
        statusWrites := [.STARTING, .STOPPED],
        http := .ok
          { success := false,
            message := "启动实例 " ++ inst.name ++ " 的任何组件失败。" },
        startedAny := false, attempted := "main" :: att }

/-- Outcome of the attach phase of handle_websocket_connection. -/
inductive AttachResult where
  /-- Session id has no underscore: handshake failed, close 1003. -/
  | invalidSession
  /-- The parsed instance id is not in the Record Store: close 1003. -/
  | unknownInstance
  /-- PtyProcess.spawn of the idle shell raised. -/
  | spawnFailed
  /-- Attached; `p` is the pty handle the client is bridged to. -/
  | attached (p : PtyHandle)
deriving DecidableEq, Repr

/-- The reuse condition of the bridge: an entry exists, holds a pty object,
and that pty is alive. -/
def hasLiveEntry (env : Env) (w : World) (session_id : String) : Bool :=
  match alookup w.reg session_id with
  | none => false
  | some info =>
    match info.pty with
    | none => false
    | some p => isAlive env w p

/-- The idle-shell working directory chosen by the bridge when it creates a
new session: the instance path for the main role, the stored service path
for a service role when present and non-empty, else the instance path. -/
def idleShellCwd (store : RecordStore) (instance_short_id type_part : String)
    (inst : InstanceRow) : String :=
  if type_part = "main" then inst.path
  else
    match store.getServiceDetails instance_short_id type_part with
    | some sd => if sd.path ≠ "" then sd.path else inst.path
    | none => inst.path

/-- The create branch of handle_websocket_connection: spawn a plain cmd.exe
shell in the fallback directory, register the entry with
command_started = false, attach the client and start the relay task. -/
def ws_attach_new (env : Env) (w : World)
    (session_id instance_short_id type_part : String) (inst : InstanceRow)
    (client : Nat) : World × AttachResult :=
  let pty_cwd := idleShellCwd w.store instance_short_id type_part inst
  let s := spawnPty env w
  match s.2 with
  | none => (s.1, .spawnFailed)
  | some p =>
    let tid := s.1.taskCount
    let info : PtyInfo :=
      { pty := some p, ws := some client, output_task := some tid,
        instance_part := instance_short_id, type_part := type_part,
        command_started := false, working_directory := some pty_cwd }
    ({ s.1 with taskCount := s.1.taskCount + 1,
                reg := ainsert s.1.reg session_id info }, .attached p)

/-- The attach phase of websocket_manager.handle_websocket_connection:
parse the session id, verify the instance, then either bridge to a live
existing pty (updating the attached client, and starting a fresh relay task
when the run command is already started) or create a new idle shell. -/
def ws_attach (env : Env) (w : World) (session_id : String) (client : Nat) :
    World × AttachResult :=
  match rpartitionUnderscore session_id with
  | none => (w, .invalidSession)
  | some (instance_short_id, type_part) =>
    match w.store.getInstance instance_short_id with
    | none => (w, .unknownInstance)
    | some inst =>
      match alookup w.reg session_id with
      | some info =>
        match info.pty with
        | some p =>
          if isAlive env w p then
            let w1 := { w with reg := aupdate w.reg session_id (fun i =>
              { i with ws := some client }) }
            if info.command_started then
              let tid := w1.taskCount
              ({ w1 with taskCount := w1.taskCount + 1,
                         reg := aupdate w1.reg session_id (fun i =>
                           { i with output_task := some tid }) },
               .attached p)
            else (w1, .attached p)
          else ws_attach_new env w session_id instance_short_id type_part inst client
        | none => ws_attach_new env w session_id instance_short_id type_part inst client
      | none => ws_attach_new env w session_id instance_short_id type_part inst client

/-- The cleanup (finally) block of handle_websocket_connection on client
disconnect: cancel the relay task and clear the attached client, keeping the
entry and its pty process. -/
def ws_detach (w : World) (session_id : String) : World :=
  { w with reg := aupdate w.reg session_id (fun i =>
      { i with ws := none, output_task := none }) }

/-- True when some registry entry tagged with the instance holds a live pty. -/
def liveInstanceSessionExists (env : Env) (w : World)
    (instance_short_id : String) : Bool :=
  w.reg.any (fun p =>
    p.2.instance_part == instance_short_id &&
      match p.2.pty with
      | some h => isAlive env w h
      | none => false)

/-- Instrumented result of the modelled restart operation. -/
structure RestartOutcome where
  world : World
  http : Except Nat ActionResponse
  mainStarted : Bool
deriving Repr

/-- Modelled from the spec: the repository source under src/ contains no
restart endpoint; spec §4.4 defines `restart` as stop then start of the main
role only, with a failed post-stop start leaving the status STOPPED.  The
stop half is the embedded stop_instance; the start-main half repeats the
start sequence of the source restricted to the main role: set STARTING,
record the start timestamp and increment start_count, attempt the main
role, then write RUNNING on success and STOPPED on failure. -/
def restart_instance (env : Env) (w : World) (instance_id : String) :
    RestartOutcome :=
  let s := stop_instance env w instance_id
  match s.http with
  | .error e => { world := s.world, http := .error e, mainStarted := false }
  | .ok _ =>
    match s.world.store.getInstance instance_id with
    | none => { world := s.world, http := .error 404, mainStarted := false }
    | some inst =>
      let store1 := (updateInstanceStatus s.world.store instance_id .STARTING).1
      let store2 := store1.updateInstance instance_id (fun r =>
        { r with last_start_time := some env.nowIso,
                 start_count := r.start_count + 1 })
      let w1 := { s.world with store := store2 }
      let m := start_pty_process env w1 (instance_id ++ "_main")
        instance_id "main"
      if m.2 then
        let u := updateInstanceStatus m.1.store instance_id .RUNNING
        { world := { m.1 with store := u.1 },
          http := .ok { success := true,
                        message := "实例 " ++ inst.name ++ " 已重启。" },
          mainStarted := true }
      else
        let u := updateInstanceStatus m.1.store instance_id .STOPPED
        { world := { m.1 with store := u.1 },
          http := .ok { success := false,
                        message := "重启实例 " ++ inst.name ++ " 失败。" },
          mainStarted := false }

/-- State of the deployment target directory. -/
inductive DirState where
  | absent
  | emptyDir
  | nonemptyDir
deriving DecidableEq, Repr

/-- Oracle for the deployment source-fetch stage: git availability plus the
per-repository clone outcome (the version tag and target path are the same
for every attempt of a stage, so the outcome is keyed by repository URL). -/
structure DeployEnv where
  gitOk : Bool
  cloneOk : String → Bool

/-- One recorded invocation of the clone helper. -/
structure CloneAttempt where
  repo : String
  tag : String
  path : String
deriving DecidableEq, Repr

/-- deploy_version.DeployManager._run_git_clone: refuse an existing
non-empty target, create the directory, and run `git clone --branch tag`
from the given repository; `false` on a missing git executable or any clone
failure (a failed clone leaves the created directory behind). -/
def run_git_clone (denv : DeployEnv) (repo_url version_tag deploy_path : String)
    (st : DirState) : DirState × Bool :=
  if st = .nonemptyDir then (st, false)
  else
    -- deploy_path.mkdir(parents=True, exist_ok=True)
    let st1 := DirState.emptyDir
    if !denv.gitOk then (st1, false)
    else if denv.cloneOk repo_url then (DirState.nonemptyDir, true)
    else (st1, false)

/-- The primary repository of DeployManager. -/
def primaryRepoUrl : String := "https://github.com/MaiM-with-u/MaiBot"

/-- The secondary mirror of DeployManager. -/
def secondaryRepoUrl : String := "https://gitee.com/DrSmooth/MaiBot"

/-- The source-fetch stage of DeployManager.deploy_version: clone from the
primary repository, on failure retry once from the secondary mirror with the
identical version tag and target path, and when both attempts fail remove
the target directory and fail the stage.  The attempts list records every
invocation of the clone helper with its arguments. -/
def fetch_stage (denv : DeployEnv) (version_tag deploy_path : String)
    (st : DirState) : DirState × Bool × List CloneAttempt :=
  let a1 : CloneAttempt :=
    { repo := primaryRepoUrl, tag := version_tag, path := deploy_path }
  let r1 := run_git_clone denv primaryRepoUrl version_tag deploy_path st
  if r1.2 then (r1.1, true, [a1])
  else
    let a2 : CloneAttempt :=
      { repo := secondaryRepoUrl, tag := version_tag, path := deploy_path }
    let r2 := run_git_clone denv secondaryRepoUrl version_tag deploy_path r1.1
    if r2.2 then (r2.1, true, [a1, a2])
    else
      -- shutil.rmtree(resolved_deploy_path) when it exists
      let st3 := if r2.1 = .absent then r2.1 else DirState.absent
      (st3, false, [a1, a2])

/-- One entry of an install report log (deploy_api.add_install_log). -/
structure CacheLogEntry where
  timestamp : String
  message : String
  level : String
deriving DecidableEq, Repr

/-- One per-service status record inside the progress cache. -/
structure ServiceStatusEntry where
  name : String
  status : String
  progress : Int
  message : String
deriving DecidableEq, Repr

/-- One record of the install-progress cache (deploy_api.install_status_cache
values).  Keys written only by later updates are optional, mirroring the
Python dict that is created with start_time and logs first. -/
structure StatusInfo where
  start_time : Int
  logs : List CacheLogEntry
  status : Option String := none
  progress : Option Int := none
  message : Option String := none
  services_install_status : List ServiceStatusEntry := []
  last_updated : Option String := none
deriving DecidableEq, Repr

/-- The install-progress cache: instance id to status record. -/
abbrev Cache := List (String × StatusInfo)

/-- deploy_api.update_install_status: create the record on first touch and
overwrite status, progress, message, service list and last_updated. -/
def update_install_status (env : Env) (c : Cache) (instance_id status : String)
    (progress : Int) (message : String)
    (services_status : List ServiceStatusEntry := []) : Cache :=
  let c1 :=
    if (alookup c instance_id).isSome then c
    else ainsert c instance_id { start_time := env.now, logs := [] }
  aupdate c1 instance_id (fun i =>
    { i with status := some status, progress := some progress,
             message := some message,
             services_install_status := services_status,
             last_updated := some env.nowIso })

/-- deploy_api.add_install_log: append a log entry, evicting the oldest
once 200 entries are held. -/
def add_install_log (env : Env) (c : Cache) (instance_id message level : String) :
    Cache :=
  let c1 :=
    if (alookup c instance_id).isSome then c
    else ainsert c instance_id { start_time := env.now, logs := [] }
  aupdate c1 instance_id (fun i =>
    let logs1 := if 200 ≤ i.logs.length then i.logs.drop 1 else i.logs
    { i with logs := logs1 ++ [{ timestamp := env.nowIso, message := message,
                                 level := level }] })

/-- The body of deploy_api.cleanup_install_status_cache once its sleep has
elapsed: delete the record when it exists and its status is terminal. -/
def cleanup_fire (c : Cache) (instance_id : String) : Cache :=
  match alookup c instance_id with
  | none => c
  | some info =>
    if info.status = some "completed" || info.status = some "failed" then
      aerase c instance_id
    else c

/-- The success finalization tail of the deployment background task
(deploy_api.save path): write the terminal "completed" record and schedule
the delayed cache eviction.  The boolean reports that an eviction task was
created (asyncio.create_task(cleanup_install_status_cache(...))). -/
def finishCompleted (env : Env) (c : Cache) (instance_id : String)
    (services_status : List ServiceStatusEntry) : Cache × Bool :=
  (update_install_status env c instance_id "completed" 100
     "部署完成！所有4个阶段已完成" services_status, true)

/-- A failure finalization of the deployment background task: write the
terminal "failed" record.  No eviction task is created on any failure path
of the source, so the boolean is false. -/
def finishFailed (env : Env) (c : Cache) (instance_id : String)
    (progress : Int) (message : String) : Cache × Bool :=
  (update_install_status env c instance_id "failed" progress message, false)

/-- The cache as observed `elapsed` seconds after a finalization step: the
scheduled eviction task (if any) has fired exactly when the configured delay
(cleanup_install_status_cache delay_seconds, default 30) has passed. -/
def cacheAfter (c : Cache) (instance_id : String) (scheduled : Bool)
    (delaySeconds elapsed : Nat) : Cache :=
  if scheduled && decide (delaySeconds ≤ elapsed) then cleanup_fire c instance_id
  else c

/-- The response shape of the install-status polling endpoint. -/
structure InstallStatusResponse where
  status : String
  progress : Int
  message : String
  services_install_status : List ServiceStatusEntry
  logs : List CacheLogEntry
deriving DecidableEq, Repr

/-- deploy_api.get_install_status: serve the cached record when present
(with the long-running-stage message embellishments); on a cache miss fall
back to a synthetic completed response when an Instance row exists, else
404.  The source also appends the embellishment into the cached record in
place; no claim depends on that mutation and it is not modelled. -/
def get_install_status (env : Env) (c : Cache) (store : RecordStore)
    (instance_id : String) : Except Nat InstallStatusResponse :=
  match alookup c instance_id with
  | none =>
    if (store.getInstance instance_id).isSome then
      .ok { status := "completed", progress := 100,
            message := "实例部署已完成", services_install_status := [],
            logs := [] }
    else .error 404
  | some info =>
    let current_progress := info.progress.getD 0
    let elapsed := env.now - info.start_time
    let msg0 := info.message.getD ""
    let msg :=
      if info.status = some "installing" && 70 ≤ current_progress &&
         current_progress ≤ 73 && 300 < elapsed then
        msg0 ++ " (已进行" ++ toString (elapsed / 60) ++
          "分钟，大型依赖包安装需要较长时间)"
      else if info.status = some "installing" && 20 ≤ current_progress &&
              current_progress ≤ 40 && 180 < elapsed then
        msg0 ++ " (已进行" ++ toString (elapsed / 60) ++
          "分钟，正在从官方源下载，请耐心等待)"
      else msg0
    .ok { status := info.status.getD "unknown",
          progress := current_progress,
          message := msg,
          services_install_status := info.services_install_status,
          logs := info.logs }

/-- Environment fixture for the C7 witness. -/
def envC7 : Env :=
  { alive0 := fun _ => true, termFails := fun _ => false,
    writeFails := fun _ => false, spawnOutcome := fun k => some (100 + k),
    venvUsable := fun _ => false, venvRewrite := fun b _ => b,
    now := 1000, nowIso := "2026-01-01T00:00:00", parseTime := fun _ => none }

/-- Instance fixture for the C7 witness. -/
def instC7 : InstanceRow :=
  { instance_id := "i1", name := "alpha", version := "v1", path := "C:/mai/i1",
    status := .STOPPED, host := "localhost", port := 8000, token := "",
    last_start_time := none, total_runtime := 0, start_count := 0 }

/-- World fixture for the C7 witness: instance i1 with a registered service
napcat whose stored run command is empty. -/
def wC7 : World :=
  { store :=
      { instances := [instC7],
        services := [{ instance_id := "i1", name := "napcat",
                       path := "C:/mai/i1/napcat", runCmd := "",
                       status := "stopped", port := 8095 }] },
    reg := [], killed := [], spawnCount := 0, taskCount := 0 }

/-- Deployment environment fixture for the C5 witness: git available, every
clone fails. -/
def denvC5 : DeployEnv := { gitOk := true, cloneOk := fun _ => false }

/-- Environment fixture for the C1 witness: every pty termination raises. -/
def envC1 : Env :=
  { alive0 := fun _ => true, termFails := fun _ => true,
    writeFails := fun _ => false, spawnOutcome := fun _ => none,
    venvUsable := fun _ => false, venvRewrite := fun b _ => b,
    now := 2000, nowIso := "2026-01-01T00:33:20", parseTime := fun _ => some 1500 }

/-- Instance fixture for the C1 witness. -/
def instC1 : InstanceRow :=
  { instance_id := "i1", name := "alpha", version := "v1", path := "C:/mai/i1",
    status := .RUNNING, host := "localhost", port := 8000, token := "",
    last_start_time := some "2026-01-01T00:25:00", total_runtime := 10,
    start_count := 3 }

/-- World fixture for the C1 witness: one live main session for i1. -/
def wC1 : World :=
  { store := { instances := [instC1], services := [] },
    reg := [("i1_main",
      { pty := some ⟨42⟩, ws := none, output_task := none,
        instance_part := "i1", type_part := "main", command_started := true,
        working_directory := some "C:/mai/i1" })],
    killed := [], spawnCount := 0, taskCount := 0 }

/-- Environment fixture for C2: pid 7 is alive, nothing fails. -/
def envC2 : Env :=
  { alive0 := fun _ => true, termFails := fun _ => false,
    writeFails := fun _ => false, spawnOutcome := fun _ => none,
    venvUsable := fun _ => false, venvRewrite := fun b _ => b,
    now := 1000, nowIso := "2026-01-01T00:00:00", parseTime := fun _ => none }

/-- Instance fixture for C2. -/
def instC2 : InstanceRow :=
  { instance_id := "i1", name := "alpha", version := "v1", path := "C:/mai/i1",
    status := .RUNNING, host := "localhost", port := 8000, token := "",
    last_start_time := none, total_runtime := 0, start_count := 1 }

/-- Registry entry fixture for C2: live pty, run command already started,
no attached client and no relay task. -/
def infoC2 : PtyInfo :=
  { pty := some ⟨7⟩, ws := none, output_task := none, instance_part := "i1",
    type_part := "main", command_started := true,
    working_directory := some "C:/mai/i1" }

/-- World fixture for C2. -/
def wC2 : World :=
  { store := { instances := [instC2], services := [] },
    reg := [("i1_main", infoC2)],
    killed := [], spawnCount := 0, taskCount := 0 }

/-- Environment fixture for C6. -/
def envC6 : Env :=
  { alive0 := fun _ => true, termFails := fun _ => false,
    writeFails := fun _ => false, spawnOutcome := fun _ => none,
    venvUsable := fun _ => false, venvRewrite := fun b _ => b,
    now := 1000, nowIso := "2026-01-01T00:00:00", parseTime := fun _ => none }

/-- Instance fixture for C6. -/
def instC6 : InstanceRow :=
  { instance_id := "i2", name := "beta", version := "v1", path := "C:/mai/i2",
    status := .RUNNING, host := "localhost", port := 8001, token := "",
    last_start_time := none, total_runtime := 0, start_count := 1 }

/-- Registry entry fixture for C6: a client 3 is attached, relay task 5. -/
def infoC6 : PtyInfo :=
  { pty := some ⟨42⟩, ws := some 3, output_task := some 5,
    instance_part := "i2", type_part := "main", command_started := true,
    working_directory := some "C:/mai/i2" }

/-- World fixture for C6. -/
def wC6 : World :=
  { store := { instances := [instC6], services := [] },
    reg := [("i2_main", infoC6)],
    killed := [], spawnCount := 0, taskCount := 6 }

/-- Environment fixture for C3: the write of the start command into the
existing idle shell raises, no spawns succeed. -/
def envC3 : Env :=
  { alive0 := fun _ => true, termFails := fun _ => false,
    writeFails := fun _ => true, spawnOutcome := fun _ => none,
    venvUsable := fun _ => false, venvRewrite := fun b _ => b,
    now := 1000, nowIso := "2026-01-01T00:16:40", parseTime := fun _ => none }

/-- Instance fixture for C3. -/
def instC3 : InstanceRow :=
  { instance_id := "i1", name := "alpha", version := "v1", path := "C:/mai/i1",
    status := .STOPPED, host := "localhost", port := 8000, token := "",
    last_start_time := none, total_runtime := 0, start_count := 2 }

/-- World fixture for C3: a live idle main shell (command not yet started)
for i1, no registered services. -/
def wC3 : World :=
  { store := { instances := [instC3], services := [] },
    reg := [("i1_main",
      { pty := some ⟨100⟩, ws := some 1, output_task := some 0,
        instance_part := "i1", type_part := "main", command_started := false,
        working_directory := some "C:/mai/i1" })],
    killed := [], spawnCount := 0, taskCount := 1 }

/-- Environment fixture for C4: every spawn fails. -/
def envC4 : Env :=
  { alive0 := fun _ => false, termFails := fun _ => false,
    writeFails := fun _ => false, spawnOutcome := fun _ => none,
    venvUsable := fun _ => false, venvRewrite := fun b _ => b,
    now := 3000, nowIso := "2026-01-01T00:50:00", parseTime := fun _ => none }

/-- Instance fixture for C4. -/
def instC4 : InstanceRow :=
  { instance_id := "i4", name := "delta", version := "v1", path := "C:/mai/i4",
    status := .RUNNING, host := "localhost", port := 8004, token := "",
    last_start_time := some "2026-01-01T00:40:00", total_runtime := 0,
    start_count := 1 }

/-- World fixture for C4. -/
def wC4 : World :=
  { store := { instances := [instC4], services := [] },
    reg := [], killed := [], spawnCount := 0, taskCount := 0 }

/-- Environment fixture for C8. -/
def envC8 : Env :=
  { alive0 := fun _ => true, termFails := fun _ => false,
    writeFails := fun _ => false, spawnOutcome := fun _ => none,
    venvUsable := fun _ => false, venvRewrite := fun b _ => b,
    now := 5000, nowIso := "2026-01-01T01:23:20", parseTime := fun _ => none }

/-- Environment fixture for C10: the idle-shell spawn yields pid 900. -/
def envC10 : Env :=
  { alive0 := fun _ => true, termFails := fun _ => false,
    writeFails := fun _ => false, spawnOutcome := fun _ => some 900,
    venvUsable := fun _ => false, venvRewrite := fun b _ => b,
    now := 1000, nowIso := "2026-01-01T00:16:40", parseTime := fun _ => none }

/-- Instance fixture for C10. -/
def instC10 : InstanceRow :=
  { instance_id := "i5", name := "epsilon", version := "v1",
    path := "C:/mai/i5", status := .STOPPED, host := "localhost",
    port := 8005, token := "", last_start_time := none, total_runtime := 0,
    start_count := 0 }

/-- World fixture for C10: role xyz is not a registered service, so its
command resolution fails, and the registry is empty. -/
def wC10 : World :=
  { store := { instances := [instC10], services := [] },
    reg := [], killed := [], spawnCount := 0, taskCount := 0 }

/-- World fixture for the C1 counterexample: a live stray session i1_xyz
whose role xyz is not in the registered-service list, so only the
supplementary sweep reaches it. -/
def wC1x : World :=
  { store := { instances := [instC1], services := [] },
    reg := [("i1_xyz",
      { pty := some ⟨77⟩, ws := none, output_task := none,
        instance_part := "i1", type_part := "xyz", command_started := true,
        working_directory := some "C:/mai/i1" })],
    killed := [], spawnCount := 0, taskCount := 0 }

section Lemmas

variable {α : Type}

theorem alookup_nil (k : String) : alookup ([] : List (String × α)) k = none := rfl

theorem alookup_cons (p : String × α) (l : List (String × α)) (k : String) :
    alookup (p :: l) k = if p.1 == k then some p.2 else alookup l k := by
  by_cases h : p.1 == k
  · simp [alookup, List.find?_cons_of_pos, h]
  · simp only [Bool.not_eq_true] at h
    simp [alookup, List.find?_cons_of_neg, h]

theorem alookup_aupdate (l : List (String × α)) (k : String) (f : α → α) :
    alookup (aupdate l k f) k = (alookup l k).map f := by
  induction l with
  | nil => rfl
  | cons p t ih =>
    by_cases h : p.1 = k
    · simp [aupdate, alookup_cons, h]
    · simpa [aupdate, alookup_cons, h] using ih

theorem alookup_ainsert_self (l : List (String × α)) (k : String) (v : α) :
    alookup (ainsert l k v) k = some v := by
  unfold ainsert
  by_cases hp : (alookup l k).isSome
  · simp only [hp, if_true]
    induction l with
    | nil => simp [alookup] at hp
    | cons p t ih =>
      by_cases h : p.1 = k
      · simp [alookup_cons, h]
      · simp only [alookup_cons, beq_iff_eq, h, if_false] at hp
        simpa [alookup_cons, h] using ih hp
  · simp only [hp, if_false]
    induction l with
    | nil => simp [alookup_cons]
    | cons p t ih =>
      by_cases h : p.1 = k
      · simp [alookup_cons, h] at hp
      · simp only [alookup_cons, beq_iff_eq, h, if_false] at hp
        simpa [alookup_cons, h] using ih hp

theorem alookup_aerase_self (l : List (String × α)) (k : String) :
    alookup (aerase l k) k = none := by
  induction l with
  | nil => rfl
  | cons p t ih =>
    by_cases h : p.1 = k
    · simpa [aerase, h] using ih
    · simpa [aerase, alookup_cons, h] using ih

theorem length_aupdate (l : List (String × α)) (k : String) (f : α → α) :
    (aupdate l k f).length = l.length := by
  simp [aupdate]

end Lemmas

theorem find?_update_instances (l : List InstanceRow) (iid : String)
    (f : InstanceRow → InstanceRow)
    (hf : ∀ r, (f r).instance_id = r.instance_id) :
    (l.map (fun x => if x.instance_id == iid then f x else x)).find?
        (fun x => x.instance_id == iid)
      = (l.find? (fun x => x.instance_id == iid)).map f := by
  induction l with
  | nil => rfl
  | cons a t ih =>
    by_cases h : a.instance_id = iid
    · have hfa : (f a).instance_id = iid := by rw [hf a]; exact h
      simp only [List.map_cons, beq_iff_eq, h, if_true]
      rw [List.find?_cons_of_pos _ (by simp [hfa]),
          List.find?_cons_of_pos _ (by simp [h])]
      rfl
    · simp only [List.map_cons, beq_iff_eq, h, if_false]
      rw [List.find?_cons_of_neg _ (by simp [h]),
          List.find?_cons_of_neg _ (by simp [h])]
      simpa using ih

theorem find?_update_instances_ne (l : List InstanceRow) (iid jid : String)
    (hij : jid ≠ iid) (f : InstanceRow → InstanceRow)
    (hf : ∀ r, (f r).instance_id = r.instance_id) :
    (l.map (fun x => if x.instance_id == iid then f x else x)).find?
        (fun x => x.instance_id == jid)
      = l.find? (fun x => x.instance_id == jid) := by
  induction l with
  | nil => rfl
  | cons a t ih =>
    by_cases h : a.instance_id = iid
    · have hfa : (f a).instance_id = iid := by rw [hf a]; exact h
      have hnj : ¬ a.instance_id = jid := by
        rw [h]; exact fun e => hij e.symm
      have hfnj : ¬ (f a).instance_id = jid := by
        rw [hfa]; exact fun e => hij e.symm
      simp only [List.map_cons, beq_iff_eq, h, if_true]
      rw [List.find?_cons_of_neg _ (by simp [hfnj]),
          List.find?_cons_of_neg _ (by simp [hnj])]
      simpa using ih
    · simp only [List.map_cons, beq_iff_eq, h, if_false]
      by_cases h2 : a.instance_id = jid
      · rw [List.find?_cons_of_pos _ (by simp [h2]),
            List.find?_cons_of_pos _ (by simp [h2])]
      · rw [List.find?_cons_of_neg _ (by simp [h2]),
            List.find?_cons_of_neg _ (by simp [h2])]
        simpa using ih

/-- Updating an instance row in place (with an id-preserving function)
rewrites exactly the row that getInstance returns. -/
theorem getInstance_updateInstance (s : RecordStore) (iid : String)
    (f : InstanceRow → InstanceRow)
    (hf : ∀ r, (f r).instance_id = r.instance_id) :
    (s.updateInstance iid f).getInstance iid = (s.getInstance iid).map f := by
  unfold RecordStore.getInstance RecordStore.updateInstance
  exact find?_update_instances s.instances iid f hf

/-- updateInstance does not touch the service rows, and (for id-preserving
updates) preserves instance existence, so the registered-service list is
unchanged. -/
theorem getInstanceServices_updateInstance (s : RecordStore) (iid jid : String)
    (f : InstanceRow → InstanceRow)
    (hf : ∀ r, (f r).instance_id = r.instance_id) :
    (s.updateInstance iid f).getInstanceServices jid
      = s.getInstanceServices jid := by
  unfold RecordStore.getInstanceServices
  by_cases hij : jid = iid
  · subst hij
    rw [show (s.updateInstance jid f).getInstance jid
          = (s.getInstance jid).map f from
        getInstance_updateInstance s jid f hf]
    cases h : s.getInstance jid <;> simp [RecordStore.updateInstance, h]
  · have heq : (s.updateInstance iid f).getInstance jid = s.getInstance jid := by
      unfold RecordStore.getInstance RecordStore.updateInstance
      exact find?_update_instances_ne s.instances iid jid hij f hf
    rw [heq]
    cases h : s.getInstance jid <;> simp [RecordStore.updateInstance, h]

/-- stop_pty_process never touches the Record Store. -/
theorem store_stop_pty (env : Env) (w : World) (sid : String) :
    (stop_pty_process env w sid).1.store = w.store := by
  unfold stop_pty_process
  dsimp only
  repeat' split
  all_goals rfl

/-- One sweep step of stop_all_ptys_for_instance never touches the Record
Store. -/
theorem store_stopAllStep (env : Env) (acc : World × StopAllResult)
    (sid : String) : (stopAllStep env acc sid).1.store = acc.1.store := by
  unfold stopAllStep
  dsimp only
  repeat' split
  all_goals rfl

/-- Folding the sweep step over any session list never touches the Record
Store. -/
theorem store_stopAll_foldl (env : Env) (l : List String) (w : World)
    (r0 : StopAllResult) :
    (l.foldl (stopAllStep env) (w, r0)).1.store = w.store := by
  induction l generalizing w r0 with
  | nil => rfl
  | cons a t ih =>
    simp only [List.foldl_cons]
    calc (t.foldl (stopAllStep env) (stopAllStep env (w, r0) a)).1.store
        = (stopAllStep env (w, r0) a).1.store := by
          have h2 := ih (stopAllStep env (w, r0) a).1 (stopAllStep env (w, r0) a).2
          simpa using h2
      _ = w.store := store_stopAllStep env (w, r0) a

/-- stop_all_ptys_for_instance never touches the Record Store. -/
theorem store_stop_all (env : Env) (w : World) (iid : String) :
    (stop_all_ptys_for_instance env w iid).1.store = w.store := by
  unfold stop_all_ptys_for_instance
  dsimp only
  split
  · rfl
  · exact store_stopAll_foldl env _ w _

/-- start_pty_process never touches the Record Store. -/
theorem store_start_pty (env : Env) (w : World) (sid iid ty : String) :
    (start_pty_process env w sid iid ty).1.store = w.store := by
  unfold start_pty_process start_pty_process.start_pty_spawn spawnPty
  dsimp only
  repeat' split
  all_goals rfl

/-- The per-role stop step never touches the Record Store. -/
theorem store_stopRolesStep (env : Env) (iid : String) (acc : World × Bool)
    (t : String) : (stopRolesStep env iid acc t).1.store = acc.1.store := by
  unfold stopRolesStep
  dsimp only
  exact store_stop_pty env acc.1 (iid ++ "_" ++ t)

/-- Folding the per-role stop step never touches the Record Store. -/
theorem store_stopRoles_foldl (env : Env) (iid : String) (l : List String)
    (w : World) (b : Bool) :
    (l.foldl (stopRolesStep env iid) (w, b)).1.store = w.store := by
  induction l generalizing w b with
  | nil => rfl
  | cons a t ih =>
    simp only [List.foldl_cons]
    calc (t.foldl (stopRolesStep env iid) (stopRolesStep env iid (w, b) a)).1.store
        = (stopRolesStep env iid (w, b) a).1.store := by
          have h2 := ih (stopRolesStep env iid (w, b) a).1
            (stopRolesStep env iid (w, b) a).2
          simpa using h2
      _ = w.store := store_stopRolesStep env iid (w, b) a

/-- Every row-updating function used by the lifecycle code preserves the
instance id. -/
theorem accounting_preserves_id (env : Env) (r : InstanceRow) :
    ((fun r : InstanceRow =>
        let rr :=
          match r.last_start_time.bind env.parseTime with
          | some t0 =>
            { r with total_runtime := r.total_runtime + (env.now - t0) }
          | none => r
        { rr with last_start_time := none }) r).instance_id
      = r.instance_id := by
  dsimp only
  split <;> rfl

/-- C7: for every role whose command cannot be resolved (service not in the
registered list, empty stored run command or path, malformed or unknown
role), the start operation returns a failure without creating a registry
entry, so the Session Registry and in particular its size are unchanged. -/
theorem C7_resolution_failure_registry_unchanged (env : Env) (w : World)
    (sid iid ty : String)
    (h : (get_pty_command_and_cwd_from_instance env w.store sid).1 = none) :
    start_pty_process env w sid iid ty = (w, false) ∧
      (start_pty_process env w sid iid ty).1.reg.length = w.reg.length := by
  have he : start_pty_process env w sid iid ty = (w, false) := by
    unfold start_pty_process
    dsimp only
    rw [h]
  exact ⟨he, by rw [he]⟩

/-- C7 witness: starting role napcat of i1 fails resolution (empty run
command) and leaves the registry size unchanged. -/
theorem C7_witness :
    (get_pty_command_and_cwd_from_instance envC7 wC7.store "i1_napcat").1
        = none ∧
      start_pty_process envC7 wC7 "i1_napcat" "i1" "napcat" = (wC7, false) ∧
      (start_pty_process envC7 wC7 "i1_napcat" "i1" "napcat").1.reg.length
        = wC7.reg.length :=
  ⟨by decide,
   C7_resolution_failure_registry_unchanged envC7 wC7 "i1_napcat" "i1" "napcat"
     (by decide)⟩

/-- C9: polling the install status of an id with no progress-cache entry
serves a synthetic completed/100 response whenever an Instance row exists,
and 404 only when neither a cache entry nor a stored instance exists. -/
theorem C9_poll_fallback (env : Env) (c : Cache) (store : RecordStore)
    (iid : String) (h : alookup c iid = none) :
    ((store.getInstance iid).isSome = true →
        get_install_status env c store iid
          = .ok { status := "completed", progress := 100,
                  message := "实例部署已完成", services_install_status := [],
                  logs := [] }) ∧
      ((store.getInstance iid).isSome = false →
        get_install_status env c store iid = .error 404) := by
  constructor <;> intro hi <;> unfold get_install_status <;> rw [h] <;>
    simp [hi]

/-- C9 witness: an empty cache with instance i1 stored gives the synthetic
completed response, and with no instance at all gives 404. -/
theorem C9_witness :
    alookup ([] : Cache) "i1" = none ∧
      (((⟨[instC7], []⟩ : RecordStore).getInstance "i1").isSome = true →
        get_install_status envC7 [] ⟨[instC7], []⟩ "i1"
          = .ok { status := "completed", progress := 100,
                  message := "实例部署已完成", services_install_status := [],
                  logs := [] }) ∧
      (((⟨[instC7], []⟩ : RecordStore).getInstance "i1").isSome = false →
        get_install_status envC7 [] ⟨[instC7], []⟩ "i1" = .error 404) :=
  ⟨rfl, C9_poll_fallback envC7 [] ⟨[instC7], []⟩ "i1" rfl⟩

/-- C5: in the source-fetch stage, a primary clone success makes exactly one
attempt; a primary failure is retried exactly once against the secondary
mirror with the identical version tag and target path; a failed stage always
leaves the target directory removed; and a non-empty pre-existing target
directory makes the stage fail. -/
theorem C5_fetch_stage (denv : DeployEnv) (tag path : String) (st : DirState) :
    ((run_git_clone denv primaryRepoUrl tag path st).2 = true →
        (fetch_stage denv tag path st).2.2
          = [{ repo := primaryRepoUrl, tag := tag, path := path }]) ∧
      ((run_git_clone denv primaryRepoUrl tag path st).2 = false →
        (fetch_stage denv tag path st).2.2
          = [{ repo := primaryRepoUrl, tag := tag, path := path },
             { repo := secondaryRepoUrl, tag := tag, path := path }]) ∧
      ((fetch_stage denv tag path st).2.1 = false →
        (fetch_stage denv tag path st).1 = .absent) ∧
      (st = .nonemptyDir → (fetch_stage denv tag path st).2.1 = false) := by
  refine ⟨?_, ?_, ?_, ?_⟩
  · intro h1
    unfold fetch_stage
    dsimp only
    rw [h1]
    simp
  · intro h1
    unfold fetch_stage
    dsimp only
    rw [h1]
    by_cases h2 : (run_git_clone denv secondaryRepoUrl tag path
        (run_git_clone denv primaryRepoUrl tag path st).1).2
    · simp [h2]
    · simp only [Bool.not_eq_true] at h2
      simp [h2]
  · intro hfail
    unfold fetch_stage at hfail ⊢
    dsimp only at hfail ⊢
    by_cases h1 : (run_git_clone denv primaryRepoUrl tag path st).2
    · rw [h1] at hfail
      simp at hfail
    · simp only [Bool.not_eq_true] at h1
      rw [h1] at hfail ⊢
      by_cases h2 : (run_git_clone denv secondaryRepoUrl tag path
          (run_git_clone denv primaryRepoUrl tag path st).1).2
      · rw [h2] at hfail
        simp at hfail
      · simp only [Bool.not_eq_true] at h2
        rw [h2]
        simp only [Bool.false_eq_true, if_false]
        split <;> simp_all
  · intro hst
    subst hst
    unfold fetch_stage run_git_clone
    simp

/-- C5 witness: with both clones failing on an initially absent target, the
stage makes both attempts with identical tag and path, removes the created
directory and fails; a non-empty directory also fails the stage. -/
theorem C5_witness :
    ((run_git_clone denvC5 primaryRepoUrl "v1.0" "C:/mai/i1" .absent).2 = false →
        (fetch_stage denvC5 "v1.0" "C:/mai/i1" .absent).2.2
          = [{ repo := primaryRepoUrl, tag := "v1.0", path := "C:/mai/i1" },
             { repo := secondaryRepoUrl, tag := "v1.0", path := "C:/mai/i1" }]) ∧
      ((fetch_stage denvC5 "v1.0" "C:/mai/i1" .absent).2.1 = false →
        (fetch_stage denvC5 "v1.0" "C:/mai/i1" .absent).1 = .absent) ∧
      (fetch_stage denvC5 "v1.0" "C:/mai/i1" .absent).2.1 = false ∧
      (fetch_stage denvC5 "v1.0" "C:/mai/i1" .nonemptyDir).2.1 = false :=
  ⟨(C5_fetch_stage denvC5 "v1.0" "C:/mai/i1" .absent).2.1,
   (C5_fetch_stage denvC5 "v1.0" "C:/mai/i1" .absent).2.2.1,
   by decide,
   (C5_fetch_stage denvC5 "v1.0" "C:/mai/i1" .nonemptyDir).2.2.2 rfl⟩

/-- Full specification of stop_instance on an existing instance: STOPPED is
stored, the response is ok with the message reflecting the termination
flag, and the status writes are STOPPING then STOPPED. -/
theorem stop_instance_spec (env : Env) (w : World) (iid : String)
    (inst : InstanceRow) (h : w.store.getInstance iid = some inst) :
    (((stop_instance env w iid).world.store.getInstance iid).map
        InstanceRow.status = some InstanceStatus.STOPPED) ∧
      (stop_instance env w iid).http
        = .ok { success := true,
                message :=
                  if (stop_instance env w iid).allPtysStopped then
                    stopOkMsg inst.name
                  else stopPartialMsg inst.name } ∧
      (stop_instance env w iid).statusWrites = [.STOPPING, .STOPPED] := by
  unfold stop_instance
  rw [h]
  dsimp only
  rw [store_stop_all, store_stopRoles_foldl]
  dsimp only
  unfold updateInstanceStatus
  dsimp only
  repeat rw [getInstance_updateInstance]
  rw [h]
  refine ⟨rfl, rfl, rfl⟩
  all_goals intro r
  all_goals dsimp only
  all_goals split <;> rfl

/-- C1 counterexample to the claim as stated: a live stray session whose
role is outside the per-role stop list is terminated only by the
supplementary sweep; when that terminate call raises, the failure is not
reported in the result message — the response still carries the
all-components-stopped-successfully text — although the process was neither
confirmed stopped nor killed. -/
theorem C1_counterexample :
    (alookup wC1x.reg "i1_xyz").map PtyInfo.pty = some (some ⟨77⟩) ∧
      isAlive envC1 wC1x ⟨77⟩ = true ∧
      envC1.termFails 77 = true ∧
      alookup (stop_instance envC1 wC1x "i1").world.reg "i1_xyz" = none ∧
      ((stop_instance envC1 wC1x "i1").world.killed.contains 77) = false ∧
      (stop_instance envC1 wC1x "i1").http
        = .ok { success := true, message := stopOkMsg "alpha" } := by
  refine ⟨by decide, by decide, by decide, by decide, by decide, ?_⟩
  rfl

/-- C1 (amended): for every instance present in the Record Store, stop
finishes with the stored status STOPPED for every environment — in
particular when every attempted pty termination fails — returns a success
response rather than propagating an error, writes STOPPING then STOPPED,
and reports in the result message exactly the failures of the explicitly
attempted per-role terminations (supplementary-sweep failures are only
logged). -/
theorem C1_stop_converges (env : Env) (w : World) (iid : String)
    (inst : InstanceRow) (h : w.store.getInstance iid = some inst) :
    (((stop_instance env w iid).world.store.getInstance iid).map
        InstanceRow.status = some InstanceStatus.STOPPED) ∧
      (stop_instance env w iid).http
        = .ok { success := true,
                message :=
                  if (stop_instance env w iid).allPtysStopped then
                    stopOkMsg inst.name
                  else stopPartialMsg inst.name } ∧
      (stop_instance env w iid).statusWrites = [.STOPPING, .STOPPED] :=
  stop_instance_spec env w iid inst h

/-- C1 witness: with a live main session and an environment in which every
termination raises, stop still converges to STOPPED with a success
response. -/
theorem C1_witness :
    wC1.store.getInstance "i1" = some instC1 ∧
      ((((stop_instance envC1 wC1 "i1").world.store.getInstance "i1").map
          InstanceRow.status = some InstanceStatus.STOPPED) ∧
        (stop_instance envC1 wC1 "i1").http
          = .ok { success := true,
                  message :=
                    if (stop_instance envC1 wC1 "i1").allPtysStopped then
                      stopOkMsg instC1.name
                    else stopPartialMsg instC1.name } ∧
        (stop_instance envC1 wC1 "i1").statusWrites = [.STOPPING, .STOPPED]) :=
  ⟨by decide, C1_stop_converges envC1 wC1 "i1" instC1 (by decide)⟩

/-- Attaching while a live entry exists always bridges to the pty held by
that entry. -/
theorem ws_attach_result_on_live (env : Env) (w : World) (sid iid ty : String)
    (inst : InstanceRow) (info : PtyInfo) (p : PtyHandle) (c : Nat)
    (hparse : rpartitionUnderscore sid = some (iid, ty))
    (hinst : w.store.getInstance iid = some inst)
    (hreg : alookup w.reg sid = some info)
    (hp : info.pty = some p)
    (halive : isAlive env w p = true) :
    (ws_attach env w sid c).2 = .attached p := by
  unfold ws_attach
  rw [hparse]
  dsimp only
  rw [hinst]
  dsimp only
  rw [hreg]
  dsimp only
  rw [hp]
  dsimp only
  rw [if_pos halive]
  split <;> rfl

/-- Attach on a live entry with the run command already started: the world
gains one relay task and the entry is updated in its attached-client and
relay-task references. -/
theorem ws_attach_on_live_started (env : Env) (w : World) (sid iid ty : String)
    (inst : InstanceRow) (info : PtyInfo) (p : PtyHandle) (c : Nat)
    (hparse : rpartitionUnderscore sid = some (iid, ty))
    (hinst : w.store.getInstance iid = some inst)
    (hreg : alookup w.reg sid = some info)
    (hp : info.pty = some p)
    (halive : isAlive env w p = true)
    (hcs : info.command_started = true) :
    ws_attach env w sid c
      = ({ w with
            taskCount := w.taskCount + 1,
            reg := aupdate (aupdate w.reg sid (fun i => { i with ws := some c }))
              sid (fun i => { i with output_task := some w.taskCount }) },
         .attached p) := by
  unfold ws_attach
  rw [hparse]
  dsimp only
  rw [hinst]
  dsimp only
  rw [hreg]
  dsimp only
  rw [hp]
  dsimp only
  rw [if_pos halive, hcs]
  rfl

/-- Attach on a live entry whose run command has not started: only the
attached-client reference of the entry changes. -/
theorem ws_attach_on_live_idle (env : Env) (w : World) (sid iid ty : String)
    (inst : InstanceRow) (info : PtyInfo) (p : PtyHandle) (c : Nat)
    (hparse : rpartitionUnderscore sid = some (iid, ty))
    (hinst : w.store.getInstance iid = some inst)
    (hreg : alookup w.reg sid = some info)
    (hp : info.pty = some p)
    (halive : isAlive env w p = true)
    (hcs : info.command_started = false) :
    ws_attach env w sid c
      = ({ w with reg := aupdate w.reg sid (fun i => { i with ws := some c }) },
         .attached p) := by
  unfold ws_attach
  rw [hparse]
  dsimp only
  rw [hinst]
  dsimp only
  rw [hreg]
  dsimp only
  rw [hp]
  dsimp only
  rw [if_pos halive, hcs]
  rfl

/-- C2 (amended): attaching while a live registry entry exists returns the
same pty handle, consumes no spawn attempt, kills nothing, and rewrites the
entry only in its attached-client reference — plus, when the run command has
already been started, its relay-task reference; a second consecutive attach
observes the identical pty. -/
theorem C2_attach_idempotent_on_live (env : Env) (w : World)
    (sid iid ty : String) (inst : InstanceRow) (info : PtyInfo)
    (p : PtyHandle) (c c2 : Nat)
    (hparse : rpartitionUnderscore sid = some (iid, ty))
    (hinst : w.store.getInstance iid = some inst)
    (hreg : alookup w.reg sid = some info)
    (hp : info.pty = some p)
    (halive : isAlive env w p = true) :
    (ws_attach env w sid c).2 = .attached p ∧
      (ws_attach env w sid c).1.spawnCount = w.spawnCount ∧
      (ws_attach env w sid c).1.killed = w.killed ∧
      alookup (ws_attach env w sid c).1.reg sid
        = some { info with
                  ws := some c,
                  output_task := if info.command_started then some w.taskCount
                                 else info.output_task } ∧
      (ws_attach env (ws_attach env w sid c).1 sid c2).2 = .attached p := by
  by_cases hcs : info.command_started
  · rw [ws_attach_on_live_started env w sid iid ty inst info p c hparse hinst
      hreg hp halive hcs]
    refine ⟨rfl, rfl, rfl, ?_, ?_⟩
    · dsimp only
      rw [alookup_aupdate, alookup_aupdate, hreg]
      simp [hcs]
    · exact ws_attach_result_on_live env _ sid iid ty inst
        ({ info with ws := some c, output_task := some w.taskCount }) p c2
        hparse hinst
        (by dsimp only; rw [alookup_aupdate, alookup_aupdate, hreg]; rfl)
        hp halive
  · simp only [Bool.not_eq_true] at hcs
    rw [ws_attach_on_live_idle env w sid iid ty inst info p c hparse hinst
      hreg hp halive hcs]
    refine ⟨rfl, rfl, rfl, ?_, ?_⟩
    · dsimp only
      rw [alookup_aupdate, hreg]
      simp [hcs]
    · exact ws_attach_result_on_live env _ sid iid ty inst
        ({ info with ws := some c }) p c2
        hparse hinst
        (by dsimp only; rw [alookup_aupdate, hreg]; rfl)
        hp halive

/-- C2 counterexample to the claim as stated: attaching to a live entry
whose run command is already started does not leave the entry unchanged
except for the attached-client reference — the relay-task reference changes
from none to a fresh task — although the pty handle is exactly reused. -/
theorem C2_counterexample :
    (alookup wC2.reg "i1_main").map PtyInfo.output_task = some none ∧
      (alookup (ws_attach envC2 wC2 "i1_main" 9).1.reg "i1_main").map
          PtyInfo.output_task = some (some 0) ∧
      (alookup (ws_attach envC2 wC2 "i1_main" 9).1.reg "i1_main").map
          PtyInfo.pty = some (some ⟨7⟩) := by
  decide

/-- C2 witness: a concrete live started entry exhibits the amended claim. -/
theorem C2_witness :
    rpartitionUnderscore "i1_main" = some ("i1", "main") ∧
      wC2.store.getInstance "i1" = some instC2 ∧
      alookup wC2.reg "i1_main" = some infoC2 ∧
      infoC2.pty = some ⟨7⟩ ∧
      isAlive envC2 wC2 ⟨7⟩ = true ∧
      ((ws_attach envC2 wC2 "i1_main" 9).2 = .attached ⟨7⟩ ∧
        (ws_attach envC2 wC2 "i1_main" 9).1.spawnCount = wC2.spawnCount ∧
        (ws_attach envC2 wC2 "i1_main" 9).1.killed = wC2.killed ∧
        alookup (ws_attach envC2 wC2 "i1_main" 9).1.reg "i1_main"
          = some { infoC2 with
                    ws := some 9,
                    output_task := if infoC2.command_started then
                        some wC2.taskCount
                      else infoC2.output_task } ∧
        (ws_attach envC2 (ws_attach envC2 wC2 "i1_main" 9).1 "i1_main" 10).2
          = .attached ⟨7⟩) :=
  ⟨by decide, by decide, by decide, by decide, by decide,
   C2_attach_idempotent_on_live envC2 wC2 "i1_main" "i1" "main" instC2 infoC2
     ⟨7⟩ 9 10 (by decide) (by decide) (by decide) (by decide) (by decide)⟩

/-- C6: on client disconnect the bridge only clears the attached-client
reference and drops the relay task; the entry, its pty handle and the kill
set are untouched (the detach path never terminates a process), and a
subsequent attach to the same session id bridges to the identical pty. -/
theorem C6_detach_preserves_pty (env : Env) (w : World) (sid iid ty : String)
    (inst : InstanceRow) (info : PtyInfo) (p : PtyHandle) (c : Nat)
    (hreg : alookup w.reg sid = some info)
    (hp : info.pty = some p)
    (hparse : rpartitionUnderscore sid = some (iid, ty))
    (hinst : w.store.getInstance iid = some inst)
    (halive : isAlive env w p = true) :
    alookup (ws_detach w sid).reg sid
        = some { info with ws := none, output_task := none } ∧
      (ws_detach w sid).killed = w.killed ∧
      (ws_detach w sid).spawnCount = w.spawnCount ∧
      (ws_detach w sid).store = w.store ∧
      (ws_attach env (ws_detach w sid) sid c).2 = .attached p := by
  refine ⟨?_, rfl, rfl, rfl, ?_⟩
  · unfold ws_detach
    dsimp only
    rw [alookup_aupdate, hreg]
    rfl
  · exact ws_attach_result_on_live env (ws_detach w sid) sid iid ty inst
      ({ info with ws := none, output_task := none }) p c
      hparse hinst
      (by unfold ws_detach; dsimp only; rw [alookup_aupdate, hreg]; rfl)
      hp halive

/-- C6 witness: detaching client 3 from the i2 main session keeps the pty
and allows client 4 to reattach to the same handle. -/
theorem C6_witness :
    alookup wC6.reg "i2_main" = some infoC6 ∧
      infoC6.pty = some ⟨42⟩ ∧
      rpartitionUnderscore "i2_main" = some ("i2", "main") ∧
      wC6.store.getInstance "i2" = some instC6 ∧
      isAlive envC6 wC6 ⟨42⟩ = true ∧
      (alookup (ws_detach wC6 "i2_main").reg "i2_main"
          = some { infoC6 with ws := none, output_task := none } ∧
        (ws_detach wC6 "i2_main").killed = wC6.killed ∧
        (ws_detach wC6 "i2_main").spawnCount = wC6.spawnCount ∧
        (ws_detach wC6 "i2_main").store = wC6.store ∧
        (ws_attach envC6 (ws_detach wC6 "i2_main") "i2_main" 4).2
          = .attached ⟨42⟩) :=
  ⟨by decide, by decide, by decide, by decide, by decide,
   C6_detach_preserves_pty envC6 wC6 "i2_main" "i2" "main" instC6 infoC6
     ⟨42⟩ 4 (by decide) (by decide) (by decide) (by decide) (by decide)⟩

/-- Characterization of the create branch of the bridge when the spawn
succeeds. -/
theorem ws_attach_new_spec (env : Env) (w : World) (sid iid ty : String)
    (inst : InstanceRow) (c pid : Nat)
    (hspawn : env.spawnOutcome w.spawnCount = some pid) :
    ws_attach_new env w sid iid ty inst c
      = ({ w with
            spawnCount := w.spawnCount + 1,
            taskCount := w.taskCount + 1,
            reg := ainsert w.reg sid
              { pty := some ⟨pid⟩, ws := some c,
                output_task := some w.taskCount,
                instance_part := iid, type_part := ty,
                command_started := false,
                working_directory := some (idleShellCwd w.store iid ty inst) } },
         .attached ⟨pid⟩) := by
  unfold ws_attach_new spawnPty
  dsimp only
  rw [hspawn]
  rfl

/-- When no live entry exists, the attach phase takes the create branch. -/
theorem ws_attach_no_live_entry (env : Env) (w : World) (sid iid ty : String)
    (inst : InstanceRow) (c : Nat)
    (hparse : rpartitionUnderscore sid = some (iid, ty))
    (hinst : w.store.getInstance iid = some inst)
    (hlive : hasLiveEntry env w sid = false) :
    ws_attach env w sid c = ws_attach_new env w sid iid ty inst c := by
  unfold ws_attach
  rw [hparse]
  dsimp only
  rw [hinst]
  dsimp only
  unfold hasLiveEntry at hlive
  cases hl : alookup w.reg sid with
  | none => rfl
  | some info =>
    rw [hl] at hlive
    dsimp only at hlive ⊢
    cases hpty : info.pty with
    | none => rfl
    | some p =>
      dsimp only at hlive ⊢
      rw [if_neg (by rw [hpty] at hlive; simpa using hlive)]

/-- C10: a WebSocket attach with a well-formed session id whose instance
exists and no live entry creates a registry entry holding an idle shell —
started-flag false — without consulting the Command Resolver: it succeeds
for any role, the working directory falling back to the stored service path
when that is present and non-empty and otherwise to the instance path. -/
theorem C10_attach_creates_idle_shell (env : Env) (w : World)
    (sid iid ty : String) (inst : InstanceRow) (c pid : Nat)
    (hparse : rpartitionUnderscore sid = some (iid, ty))
    (hinst : w.store.getInstance iid = some inst)
    (hlive : hasLiveEntry env w sid = false)
    (hspawn : env.spawnOutcome w.spawnCount = some pid) :
    (ws_attach env w sid c).2 = .attached ⟨pid⟩ ∧
      alookup (ws_attach env w sid c).1.reg sid
        = some { pty := some ⟨pid⟩, ws := some c,
                 output_task := some w.taskCount,
                 instance_part := iid, type_part := ty,
                 command_started := false,
                 working_directory := some (
                   if ty = "main" then inst.path
                   else
                     match w.store.getServiceDetails iid ty with
                     | some sd => if sd.path ≠ "" then sd.path else inst.path
                     | none => inst.path) } := by
  rw [ws_attach_no_live_entry env w sid iid ty inst c hparse hinst hlive,
      ws_attach_new_spec env w sid iid ty inst c pid hspawn]
  refine ⟨rfl, ?_⟩
  dsimp only
  rw [alookup_ainsert_self]
  rfl

/-- C10 witness: attaching role xyz of i5 — an unlisted service whose
command resolution fails — still creates an idle cmd shell entry in the
instance path with the started-flag false. -/
theorem C10_witness :
    rpartitionUnderscore "i5_xyz" = some ("i5", "xyz") ∧
      wC10.store.getInstance "i5" = some instC10 ∧
      hasLiveEntry envC10 wC10 "i5_xyz" = false ∧
      envC10.spawnOutcome wC10.spawnCount = some 900 ∧
      (get_pty_command_and_cwd_from_instance envC10 wC10.store "i5_xyz").1
        = none ∧
      ((ws_attach envC10 wC10 "i5_xyz" 2).2 = .attached ⟨900⟩ ∧
        alookup (ws_attach envC10 wC10 "i5_xyz" 2).1.reg "i5_xyz"
          = some { pty := some ⟨900⟩, ws := some 2,
                   output_task := some wC10.taskCount,
                   instance_part := "i5", type_part := "xyz",
                   command_started := false,
                   working_directory := some (
                     if "xyz" = "main" then instC10.path
                     else
                       match wC10.store.getServiceDetails "i5" "xyz" with
                       | some sd =>
                         if sd.path ≠ "" then sd.path else instC10.path
                       | none => instC10.path) }) :=
  ⟨by decide, by decide, by decide, by decide, by decide,
   C10_attach_creates_idle_shell envC10 wC10 "i5_xyz" "i5" "xyz" instC10 2 900
     (by decide) (by decide) (by decide) (by decide)⟩

/-- C4: restart — stop followed by a start of the main role only — leaves
the stored status STOPPED, never RUNNING, whenever the post-stop main start
fails. -/
theorem C4_restart_failed_start_stopped (env : Env) (w : World) (iid : String)
    (inst : InstanceRow) (h : w.store.getInstance iid = some inst)
    (hfail : (restart_instance env w iid).mainStarted = false) :
    ((restart_instance env w iid).world.store.getInstance iid).map
        InstanceRow.status = some InstanceStatus.STOPPED ∧
      ((restart_instance env w iid).world.store.getInstance iid).map
        InstanceRow.status ≠ some InstanceStatus.RUNNING := by
  have hs := stop_instance_spec env w iid inst h
  obtain ⟨r, hr, hrs⟩ : ∃ r,
      (stop_instance env w iid).world.store.getInstance iid = some r ∧
        r.status = InstanceStatus.STOPPED := by
    rcases hmap : (stop_instance env w iid).world.store.getInstance iid with
      _ | r
    · rw [hmap] at hs
      simp at hs
    · refine ⟨r, rfl, ?_⟩
      have h1 := hs.1
      rw [hmap] at h1
      simpa using h1
  have hhttp := hs.2.1
  unfold restart_instance at hfail ⊢
  dsimp only at hfail ⊢
  rw [hhttp] at hfail ⊢
  dsimp only at hfail ⊢
  rw [hr] at hfail ⊢
  dsimp only at hfail ⊢
  split at hfail
  · simp at hfail
  · rename_i hcond
    rw [if_neg hcond]
    dsimp only
    rw [store_start_pty]
    dsimp only
    unfold updateInstanceStatus
    dsimp only
    repeat rw [getInstance_updateInstance]
    rw [hr]
    refine ⟨rfl, by simp⟩
    all_goals intro x
    all_goals rfl

/-- C4 witness: with every spawn failing and the main shell absent, restart
of i4 ends STOPPED and not RUNNING. -/
theorem C4_witness :
    wC4.store.getInstance "i4" = some instC4 ∧
      (restart_instance envC4 wC4 "i4").mainStarted = false ∧
      (((restart_instance envC4 wC4 "i4").world.store.getInstance "i4").map
          InstanceRow.status = some InstanceStatus.STOPPED ∧
        ((restart_instance envC4 wC4 "i4").world.store.getInstance "i4").map
          InstanceRow.status ≠ some InstanceStatus.RUNNING) :=
  ⟨by decide, by decide,
   C4_restart_failed_start_stopped envC4 wC4 "i4" instC4 (by decide)
     (by decide)⟩

/-- The per-service start step never touches the Record Store. -/
theorem store_startSvcStep (env : Env) (iid : String)
    (acc : World × Bool × List String) (svc : ServiceRow) :
    (startServicesStep env iid acc svc).1.store = acc.1.store := by
  unfold startServicesStep
  dsimp only
  split
  · rfl
  · exact store_start_pty env acc.1 (iid ++ "_" ++ svc.name) iid svc.name

/-- Folding the per-service start step never touches the Record Store. -/
theorem store_startSvc_foldl (env : Env) (iid : String) (l : List ServiceRow)
    (w : World) (b : Bool) (a : List String) :
    (l.foldl (startServicesStep env iid) (w, b, a)).1.store = w.store := by
  induction l generalizing w b a with
  | nil => rfl
  | cons svc t ih =>
    simp only [List.foldl_cons]
    calc (t.foldl (startServicesStep env iid)
            (startServicesStep env iid (w, b, a) svc)).1.store
        = (startServicesStep env iid (w, b, a) svc).1.store := by
          have h2 := ih (startServicesStep env iid (w, b, a) svc).1
            (startServicesStep env iid (w, b, a) svc).2.1
            (startServicesStep env iid (w, b, a) svc).2.2
          simpa using h2
      _ = w.store := store_startSvcStep env iid (w, b, a) svc

/-- The roles attempted by the service loop are exactly the registered
service names that are non-empty and not literally "main", in order. -/
theorem attempted_foldl (env : Env) (iid : String) (l : List ServiceRow)
    (w : World) (b : Bool) (a : List String) :
    (l.foldl (startServicesStep env iid) (w, b, a)).2.2
      = a ++ (l.filter (fun s => s.name ≠ "" && s.name ≠ "main")).map (·.name) := by
  induction l generalizing w b a with
  | nil => simp
  | cons svc t ih =>
    simp only [List.foldl_cons, List.filter_cons]
    by_cases h1 : svc.name = ""
    · have hstep : startServicesStep env iid (w, b, a) svc = (w, b, a) := by
        unfold startServicesStep
        simp [h1]
      rw [hstep]
      simp [h1, ih]
    · by_cases h2 : svc.name = "main"
      · have hstep : startServicesStep env iid (w, b, a) svc = (w, b, a) := by
          unfold startServicesStep
          simp [h2]
        rw [hstep]
        simp [h1, h2, ih]
      · have hstep : startServicesStep env iid (w, b, a) svc
            = ((start_pty_process env w (iid ++ "_" ++ svc.name) iid svc.name).1,
               b || (start_pty_process env w (iid ++ "_" ++ svc.name) iid
                 svc.name).2,
               a ++ [svc.name]) := by
          unfold startServicesStep
          simp [h1, h2]
        rw [hstep]
        simp [h1, h2, ih]

/-- C3 (amended): start on an existing instance writes STARTING first and
then RUNNING exactly when at least one attempted role start succeeded, else
STOPPED; the same status ends up stored; the start timestamp is recorded and
start_count incremented; and the attempted roles are main followed by every
registered service except empty names and one literally named "main". -/
theorem C3_start_sequence (env : Env) (w : World) (iid : String)
    (inst : InstanceRow) (h : w.store.getInstance iid = some inst) :
    (start_instance env w iid).statusWrites
        = [.STARTING,
           if (start_instance env w iid).startedAny then .RUNNING
           else .STOPPED] ∧
      ((start_instance env w iid).world.store.getInstance iid).map
          InstanceRow.status
        = some (if (start_instance env w iid).startedAny then
              InstanceStatus.RUNNING
            else InstanceStatus.STOPPED) ∧
      ((start_instance env w iid).world.store.getInstance iid).map
          InstanceRow.start_count = some (inst.start_count + 1) ∧
      ((start_instance env w iid).world.store.getInstance iid).map
          InstanceRow.last_start_time = some (some env.nowIso) ∧
      (start_instance env w iid).attempted
        = "main" :: ((w.store.getInstanceServices iid).filter
            (fun s => s.name ≠ "" && s.name ≠ "main")).map (·.name) := by
  unfold start_instance
  rw [h]
  dsimp only
  refine ⟨?_, ?_, ?_, ?_, ?_⟩
  · split <;> rfl
  · split <;>
      (rw [store_startSvc_foldl, store_start_pty]
       dsimp only
       unfold updateInstanceStatus
       dsimp only
       repeat rw [getInstance_updateInstance]
       rw [h]
       · rfl
       all_goals intro x
       all_goals rfl)
  · split <;>
      (rw [store_startSvc_foldl, store_start_pty]
       dsimp only
       unfold updateInstanceStatus
       dsimp only
       repeat rw [getInstance_updateInstance]
       rw [h]
       · rfl
       all_goals intro x
       all_goals rfl)
  · split <;>
      (rw [store_startSvc_foldl, store_start_pty]
       dsimp only
       unfold updateInstanceStatus
       dsimp only
       repeat rw [getInstance_updateInstance]
       rw [h]
       · rfl
       all_goals intro x
       all_goals rfl)
  · split <;>
      (dsimp only
       rw [attempted_foldl, store_start_pty]
       dsimp only
       rw [getInstanceServices_updateInstance]
       unfold updateInstanceStatus
       dsimp only
       rw [getInstanceServices_updateInstance]
       · rfl
       all_goals intro x
       all_goals rfl)

/-- C3 counterexample to the claim as stated: with a live idle main shell
whose start-command write fails and no registered services, start ends with
stored status STOPPED although a live PTY session of the instance exists
afterwards — the final status tracks the success of the attempted starts,
not session liveness. -/
theorem C3_counterexample :
    liveInstanceSessionExists envC3 (start_instance envC3 wC3 "i1").world "i1"
        = true ∧
      ((start_instance envC3 wC3 "i1").world.store.getInstance "i1").map
        InstanceRow.status = some InstanceStatus.STOPPED := by
  decide

/-- C3 witness: the amended start sequence at the concrete C3 world. -/
theorem C3_witness :
    wC3.store.getInstance "i1" = some instC3 ∧
      ((start_instance envC3 wC3 "i1").statusWrites
          = [.STARTING,
             if (start_instance envC3 wC3 "i1").startedAny then .RUNNING
             else .STOPPED] ∧
        ((start_instance envC3 wC3 "i1").world.store.getInstance "i1").map
            InstanceRow.status
          = some (if (start_instance envC3 wC3 "i1").startedAny then
                InstanceStatus.RUNNING
              else InstanceStatus.STOPPED) ∧
        ((start_instance envC3 wC3 "i1").world.store.getInstance "i1").map
            InstanceRow.start_count = some (instC3.start_count + 1) ∧
        ((start_instance envC3 wC3 "i1").world.store.getInstance "i1").map
            InstanceRow.last_start_time = some (some envC3.nowIso) ∧
        (start_instance envC3 wC3 "i1").attempted
          = "main" :: ((wC3.store.getInstanceServices "i1").filter
              (fun s => s.name ≠ "" && s.name ≠ "main")).map (·.name)) :=
  ⟨by decide, C3_start_sequence envC3 wC3 "i1" instC3 (by decide)⟩

/-- update_install_status always leaves a record with the written status
(keeping the start time and logs of the existing record, if any). -/
theorem alookup_update_install (env : Env) (c : Cache) (iid st : String)
    (p : Int) (m : String) (sv : List ServiceStatusEntry) :
    alookup (update_install_status env c iid st p m sv) iid
      = some { start_time := ((alookup c iid).getD { start_time := env.now, logs := [] }).start_time,
               logs := ((alookup c iid).getD { start_time := env.now, logs := [] }).logs,
               status := some st, progress := some p, message := some m,
               services_install_status := sv,
               last_updated := some env.nowIso } := by
  unfold update_install_status
  dsimp only
  by_cases hc : (alookup c iid).isSome
  · rw [if_pos hc]
    rcases Option.isSome_iff_exists.mp hc with ⟨i0, hi0⟩
    rw [alookup_aupdate, hi0]
    rfl
  · have hnone : alookup c iid = none := by
      rcases hx : alookup c iid with _ | i0
      · rfl
      · rw [hx] at hc
        simp at hc
    rw [if_neg hc, alookup_aupdate, alookup_ainsert_self, hnone]
    rfl

/-- C8 (amended): a record that reaches "completed" is scheduled for
eviction and remains readable strictly before the configured 30-second
delay, becoming unreadable exactly once the delay has elapsed; a record
that reaches "failed" schedules no eviction and stays readable at every
later time. -/
theorem C8_cache_eviction (env : Env) (c : Cache) (iid : String)
    (svcs : List ServiceStatusEntry) (prog : Int) (msg : String) :
    (finishCompleted env c iid svcs).2 = true ∧
      (∀ elapsed : Nat, elapsed < 30 →
        (alookup (cacheAfter (finishCompleted env c iid svcs).1 iid
            (finishCompleted env c iid svcs).2 30 elapsed) iid).isSome
          = true) ∧
      (∀ elapsed : Nat, 30 ≤ elapsed →
        alookup (cacheAfter (finishCompleted env c iid svcs).1 iid
            (finishCompleted env c iid svcs).2 30 elapsed) iid = none) ∧
      (finishFailed env c iid prog msg).2 = false ∧
      (∀ elapsed : Nat,
        (alookup (cacheAfter (finishFailed env c iid prog msg).1 iid
            (finishFailed env c iid prog msg).2 30 elapsed) iid).isSome
          = true) := by
  refine ⟨rfl, ?_, ?_, rfl, ?_⟩
  · intro e he
    have hd : decide (30 ≤ e) = false := decide_eq_false (by omega)
    unfold cacheAfter
    rw [if_neg (by simp [finishCompleted, hd])]
    unfold finishCompleted
    dsimp only
    rw [alookup_update_install]
    rfl
  · intro e he
    have hd : decide (30 ≤ e) = true := decide_eq_true he
    unfold cacheAfter
    rw [if_pos (by simp [finishCompleted, hd])]
    unfold cleanup_fire finishCompleted
    dsimp only
    rw [alookup_update_install]
    dsimp only
    rw [if_pos (by simp)]
    exact alookup_aerase_self _ _
  · intro e
    unfold cacheAfter
    rw [if_neg (by simp [finishFailed])]
    unfold finishFailed
    dsimp only
    rw [alookup_update_install]
    rfl

/-- C8 counterexample to the claim as stated: a deployment that ends in the
"failed" terminal state schedules no eviction task, and its progress-cache
record is still readable long after the 30-second delay has elapsed — it
never becomes unreadable, so the eviction-after-delay behaviour does not
hold for both terminal states. -/
theorem C8_counterexample :
    (finishFailed envC8 [] "i1" 80 "数据库错误").2 = false ∧
      alookup (cacheAfter (finishFailed envC8 [] "i1" 80 "数据库错误").1 "i1"
          (finishFailed envC8 [] "i1" 80 "数据库错误").2 30 1000) "i1"
        ≠ none := by
  decide

/-- C8 witness: concrete readings of the completed record at 5 and at 30
seconds, and of a failed record at 1000 seconds. -/
theorem C8_witness :
    (finishCompleted envC8 [] "i1" []).2 = true ∧
      (5 < 30 ∧
        (alookup (cacheAfter (finishCompleted envC8 [] "i1" []).1 "i1"
            (finishCompleted envC8 [] "i1" []).2 30 5) "i1").isSome = true) ∧
      (30 ≤ 30 ∧
        alookup (cacheAfter (finishCompleted envC8 [] "i1" []).1 "i1"
            (finishCompleted envC8 [] "i1" []).2 30 30) "i1" = none) ∧
      (finishFailed envC8 [] "i1" 80 "内部错误").2 = false ∧
      (alookup (cacheAfter (finishFailed envC8 [] "i1" 80 "内部错误").1 "i1"
          (finishFailed envC8 [] "i1" 80 "内部错误").2 30 1000) "i1").isSome
        = true :=
  ⟨(C8_cache_eviction envC8 [] "i1" [] 80 "内部错误").1,
   ⟨by decide,
    (C8_cache_eviction envC8 [] "i1" [] 80 "内部错误").2.1 5 (by decide)⟩,
   ⟨by decide,
    (C8_cache_eviction envC8 [] "i1" [] 80 "内部错误").2.2.1 30 (by decide)⟩,
   (C8_cache_eviction envC8 [] "i1" [] 80 "内部错误").2.2.2.1,
   (C8_cache_eviction envC8 [] "i1" [] 80 "内部错误").2.2.2.2 1000⟩

end MaiLauncher
